import Mathlib

/-!
Verification of the ice-protocol core (health engine, allocation strategies,
epoch executor) against its natural-language specification.

The embedding models JavaScript numbers with exact rationals (`ℚ`).  Where a
JavaScript arithmetic special value can arise (division by zero in the
adaptive allocation strategy), a dedicated value type `JsVal` with `NaN` and
signed infinities models the JavaScript semantics explicitly.  Timestamps are
integers (the source always floors them to whole seconds).
-/

/-- `Math.round` on a finite JavaScript number: round half toward positive
infinity. -/
def jsRound (q : ℚ) : ℤ := ⌊q + 1/2⌋

/-- `Math.round(x * 100) / 100`: round to two decimal places, as used
throughout the health engine. -/
def round2 (q : ℚ) : ℚ := (jsRound (q * 100) : ℚ) / 100

/-- Input metrics for the health computation (`HealthMetricsInput`). -/
structure HealthMetricsInput where
  buybackCountLast24h : ℚ
  buybackVolumeSolLast24h : ℚ
  recentSellPressureSol : ℚ
  currentLiquidity : ℚ
  volatilityPercent24h : ℚ
  lastBuybackTimestampSeconds : ℤ
  currentTimestampSeconds : ℤ
  deriving DecidableEq

/-- The five normalized sub-scores (`IceHealthMetrics`). -/
structure IceHealthMetrics where
  buybackFrequency : ℚ
  buybackCoverage : ℚ
  liquidityDepth : ℚ
  volatilityPenalty : ℚ
  timeDecay : ℚ
  deriving DecidableEq

/-- Health status tag. -/
inductive HealthStatus where
  | ALIVE
  | MELTING
  | DEAD
  deriving DecidableEq

/-- Snapshot produced once per epoch by the health engine
(`IceHealthState`). -/
structure IceHealthState where
  timestamp : ℤ
  health : ℚ
  metrics : IceHealthMetrics
  status : HealthStatus
  lastActionTime : ℤ
  epochNumber : ℕ
  deriving DecidableEq

/-- The five configurable weights (`ProtocolConfig.iceHealthWeights`). -/
structure IceHealthWeights where
  buybackFrequency : ℚ
  buybackCoverage : ℚ
  liquidityDepth : ℚ
  volatilityPenalty : ℚ
  timeDecay : ℚ
  deriving DecidableEq

/-- The slice of `ProtocolConfig` consumed by the health engine. -/
structure HealthConfig where
  iceHealthWeights : IceHealthWeights
  iceHealthThreshold : ℚ
  deriving DecidableEq

namespace IceHealthEngine

/-- `IceHealthEngine.computeMetrics`: the five sub-scores, each rounded to two
decimal places exactly as in the source (the `Math.round(s * 100) / 100`
applied when the `IceHealthMetrics` record is built). -/
def computeMetrics (input : HealthMetricsInput) : IceHealthMetrics :=
  let buybackFrequencyScore := min 100 ((input.buybackCountLast24h / 4) * 100)
  let estimatedBuybackCoverage :=
    if input.recentSellPressureSol > 0 then
      (input.buybackVolumeSolLast24h / input.recentSellPressureSol) * 100
    else 100
  let buybackCoverageScore := min 100 estimatedBuybackCoverage
  let liquidityDepthScore := min 100 ((input.currentLiquidity / 50) * 100)
  let volatilityPenaltyScore := min 100 input.volatilityPercent24h
  let secondsSinceLastAction :=
    input.currentTimestampSeconds - input.lastBuybackTimestampSeconds
  let hoursSinceLastAction := (secondsSinceLastAction : ℚ) / 3600
  let timeDecayScore := min 100 (max 0 ((hoursSinceLastAction / 72) * 100))
  { buybackFrequency := round2 buybackFrequencyScore
    buybackCoverage := round2 buybackCoverageScore
    liquidityDepth := round2 liquidityDepthScore
    volatilityPenalty := round2 volatilityPenaltyScore
    timeDecay := round2 timeDecayScore }

/-- `IceHealthEngine.computeHealthScore`: weighted sum of the (already
rounded) sub-scores, clamped to `[0, 100]`. -/
def computeHealthScore (cfg : HealthConfig) (metrics : IceHealthMetrics) : ℚ :=
  let weights := cfg.iceHealthWeights
  let score :=
    weights.buybackFrequency * metrics.buybackFrequency +
    weights.buybackCoverage * metrics.buybackCoverage +
    weights.liquidityDepth * metrics.liquidityDepth -
    weights.volatilityPenalty * metrics.volatilityPenalty -
    weights.timeDecay * metrics.timeDecay
  max 0 (min 100 score)

/-- `IceHealthEngine.computeStatus`: threshold comparison on the (unrounded)
composite score. -/
def computeStatus (cfg : HealthConfig) (health : ℚ) : HealthStatus :=
  if health ≥ cfg.iceHealthThreshold then .ALIVE
  else if health > 0 then .MELTING
  else .DEAD

/-- `IceHealthEngine.computeHealth`: builds the per-epoch state snapshot.
`nowSeconds` models `Math.floor(Date.now() / 1000)`. -/
def computeHealth (cfg : HealthConfig) (nowSeconds : ℤ)
    (input : HealthMetricsInput) (epochNumber : ℕ) : IceHealthState :=
  let metrics := computeMetrics input
  let health := computeHealthScore cfg metrics
  let status := computeStatus cfg health
  { timestamp := nowSeconds
    health := round2 health
    metrics := metrics
    status := status
    lastActionTime := input.lastBuybackTimestampSeconds
    epochNumber := epochNumber }

end IceHealthEngine

/-- The sub-scores as the specification states them, with no rounding
(spec section 4.1).  Used to compare against `computeMetrics`, which rounds
each sub-score to two decimal places. -/
def rawMetrics (input : HealthMetricsInput) : IceHealthMetrics :=
  { buybackFrequency := min 100 ((input.buybackCountLast24h / 4) * 100)
    buybackCoverage :=
      min 100 (if input.recentSellPressureSol > 0 then
        (input.buybackVolumeSolLast24h / input.recentSellPressureSol) * 100
      else 100)
    liquidityDepth := min 100 ((input.currentLiquidity / 50) * 100)
    volatilityPenalty := min 100 input.volatilityPercent24h
    timeDecay :=
      min 100 (max 0
        ((((input.currentTimestampSeconds - input.lastBuybackTimestampSeconds : ℤ) : ℚ)
          / 3600 / 72) * 100)) }

/-- Apply two-decimal rounding to every field of a metrics record. -/
def roundMetrics (m : IceHealthMetrics) : IceHealthMetrics :=
  { buybackFrequency := round2 m.buybackFrequency
    buybackCoverage := round2 m.buybackCoverage
    liquidityDepth := round2 m.liquidityDepth
    volatilityPenalty := round2 m.volatilityPenalty
    timeDecay := round2 m.timeDecay }

/-- The health-engine configuration used by the spec's worked example:
weights 0.25 / 0.25 / 0.25 / 0.15 / 0.10, threshold 50. -/
def exampleConfig : HealthConfig :=
  { iceHealthWeights :=
      { buybackFrequency := 1/4
        buybackCoverage := 1/4
        liquidityDepth := 1/4
        volatilityPenalty := 3/20
        timeDecay := 1/10 }
    iceHealthThreshold := 50 }

/-- The spec's worked-example input, with the last buyback exactly 3600
seconds before the current timestamp `t`. -/
def exampleInput (t : ℤ) : HealthMetricsInput :=
  { buybackCountLast24h := 5
    buybackVolumeSolLast24h := 10
    recentSellPressureSol := 5
    currentLiquidity := 100
    volatilityPercent24h := 10
    lastBuybackTimestampSeconds := t - 3600
    currentTimestampSeconds := t }

/-- A health-engine configuration with the example weights and a threshold
chosen between the composite computed from rounded sub-scores (73.361) and
the composite computed from unrounded sub-scores (2641/36 = 73.3611...). -/
def thresholdProbeConfig : HealthConfig :=
  { iceHealthWeights := exampleConfig.iceHealthWeights
    iceHealthThreshold := 733611/10000 }

/-- Rounding to two decimals sends a value of `[0, 100]` back into
`[0, 100]`. -/
lemma round2_mem_Icc {x : ℚ} (h0 : 0 ≤ x) (h100 : x ≤ 100) :
    0 ≤ round2 x ∧ round2 x ≤ 100 := by
  unfold round2 jsRound
  constructor
  · have hfl : (0 : ℤ) ≤ ⌊x * 100 + 1/2⌋ := by
      rw [Int.floor_nonneg]
      nlinarith
    positivity
  · have hfl : ⌊x * 100 + 1/2⌋ ≤ (10000 : ℤ) := by
      have : ⌊x * 100 + 1/2⌋ < (10001 : ℤ) := by
        rw [Int.floor_lt]
        push_cast
        nlinarith
      omega
    rw [div_le_iff (by norm_num)]
    calc ((⌊x * 100 + 1/2⌋ : ℤ) : ℚ) ≤ ((10000 : ℤ) : ℚ) := by exact_mod_cast hfl
      _ = 100 * 100 := by norm_num

/-- Claim C1 counterexample: on the spec's worked-example input the reported
composite health is 73.36, not the 68.64 the claim states. -/
theorem C1_counterexample :
    (IceHealthEngine.computeHealth exampleConfig 0 (exampleInput 1000000) 0).health
      = 7336/100 ∧
    (IceHealthEngine.computeHealth exampleConfig 0 (exampleInput 1000000) 0).health
      ≠ 6864/100 := by
  constructor <;>
    norm_num [IceHealthEngine.computeHealth, IceHealthEngine.computeHealthScore,
      IceHealthEngine.computeMetrics, exampleConfig, exampleInput, round2, jsRound,
      min_def, max_def]

/-- Claim C1 (amended): for the worked-example input (buyback count 5, volume
10, sell pressure 5, liquidity 100, volatility 10, last buyback exactly 3600 s
before the current timestamp, weights 0.25/0.25/0.25/0.15/0.10, threshold 50)
`computeHealth` reports the sub-scores 100, 100, 100, 10 and 1.39, a composite
health of 73.36, and status ALIVE. -/
theorem C1_amended_worked_example (t now : ℤ) (epoch : ℕ) :
    (IceHealthEngine.computeHealth exampleConfig now (exampleInput t) epoch).metrics
        = ⟨100, 100, 100, 10, 139/100⟩ ∧
    (IceHealthEngine.computeHealth exampleConfig now (exampleInput t) epoch).health
        = 7336/100 ∧
    (IceHealthEngine.computeHealth exampleConfig now (exampleInput t) epoch).status
        = .ALIVE := by
  refine ⟨?_, ?_, ?_⟩ <;>
    norm_num [IceHealthEngine.computeHealth, IceHealthEngine.computeHealthScore,
      IceHealthEngine.computeMetrics, IceHealthEngine.computeStatus,
      exampleConfig, exampleInput, round2, jsRound, min_def, max_def,
      IceHealthMetrics.mk.injEq]

/-- Claim C2 counterexample: the clamped composite and the status comparison
are computed from the ROUNDED sub-scores, not the unrounded ones.  On the
worked-example input with threshold 73.3611 the code's composite is 73.361
(status MELTING) while the composite over unrounded sub-scores is
2641/36 = 73.3611... (status ALIVE). -/
theorem C2_counterexample :
    IceHealthEngine.computeHealthScore thresholdProbeConfig
        (IceHealthEngine.computeMetrics (exampleInput 1000000))
      ≠ IceHealthEngine.computeHealthScore thresholdProbeConfig
          (rawMetrics (exampleInput 1000000)) ∧
    (IceHealthEngine.computeHealth thresholdProbeConfig 0 (exampleInput 1000000) 0).status
      = .MELTING ∧
    IceHealthEngine.computeStatus thresholdProbeConfig
        (IceHealthEngine.computeHealthScore thresholdProbeConfig
          (rawMetrics (exampleInput 1000000)))
      = .ALIVE := by
  refine ⟨?_, ?_, ?_⟩ <;>
    norm_num [IceHealthEngine.computeHealth, IceHealthEngine.computeHealthScore,
      IceHealthEngine.computeMetrics, IceHealthEngine.computeStatus,
      rawMetrics, thresholdProbeConfig, exampleConfig, exampleInput,
      round2, jsRound, min_def, max_def]

/-- Claim C2 (amended): the final two-decimal rounding of the composite is
applied only to the reported `health` value — both the clamp and the
ALIVE/MELTING/DEAD comparison use the composite before that final rounding —
but every sub-score is rounded to two decimal places inside `computeMetrics`
before it enters the weighted sum. -/
theorem C2_amended_rounding_structure (cfg : HealthConfig) (now : ℤ)
    (input : HealthMetricsInput) (epoch : ℕ) :
    (IceHealthEngine.computeHealth cfg now input epoch).health
        = round2 (IceHealthEngine.computeHealthScore cfg
            (IceHealthEngine.computeMetrics input)) ∧
    (IceHealthEngine.computeHealth cfg now input epoch).status
        = IceHealthEngine.computeStatus cfg
            (IceHealthEngine.computeHealthScore cfg
              (IceHealthEngine.computeMetrics input)) ∧
    IceHealthEngine.computeMetrics input = roundMetrics (rawMetrics input) := by
  refine ⟨rfl, rfl, ?_⟩
  simp [IceHealthEngine.computeMetrics, roundMetrics, rawMetrics]

/-- Claim C3: for every weight vector summing to 1 and every input with
non-negative numeric fields, both the clamped composite score and the reported
health value lie in `[0, 100]`. -/
theorem C3_health_in_range (cfg : HealthConfig) (input : HealthMetricsInput)
    (now : ℤ) (epoch : ℕ)
    (hw : cfg.iceHealthWeights.buybackFrequency
        + cfg.iceHealthWeights.buybackCoverage
        + cfg.iceHealthWeights.liquidityDepth
        + cfg.iceHealthWeights.volatilityPenalty
        + cfg.iceHealthWeights.timeDecay = 1)
    (h1 : 0 ≤ input.buybackCountLast24h)
    (h2 : 0 ≤ input.buybackVolumeSolLast24h)
    (h3 : 0 ≤ input.recentSellPressureSol)
    (h4 : 0 ≤ input.currentLiquidity)
    (h5 : 0 ≤ input.volatilityPercent24h) :
    0 ≤ IceHealthEngine.computeHealthScore cfg (IceHealthEngine.computeMetrics input) ∧
    IceHealthEngine.computeHealthScore cfg (IceHealthEngine.computeMetrics input) ≤ 100 ∧
    0 ≤ (IceHealthEngine.computeHealth cfg now input epoch).health ∧
    (IceHealthEngine.computeHealth cfg now input epoch).health ≤ 100 := by
  have hscore : 0 ≤ IceHealthEngine.computeHealthScore cfg
        (IceHealthEngine.computeMetrics input) ∧
      IceHealthEngine.computeHealthScore cfg
        (IceHealthEngine.computeMetrics input) ≤ 100 := by
    unfold IceHealthEngine.computeHealthScore
    refine ⟨le_max_left _ _, max_le (by norm_num) (min_le_left _ _)⟩
  have hround := round2_mem_Icc hscore.1 hscore.2
  exact ⟨hscore.1, hscore.2, hround.1, hround.2⟩

/-- Witness for C3 at the worked-example configuration and input. -/
theorem C3_health_in_range_witness :
    0 ≤ IceHealthEngine.computeHealthScore exampleConfig
        (IceHealthEngine.computeMetrics (exampleInput 1000000)) ∧
    IceHealthEngine.computeHealthScore exampleConfig
        (IceHealthEngine.computeMetrics (exampleInput 1000000)) ≤ 100 ∧
    0 ≤ (IceHealthEngine.computeHealth exampleConfig 0 (exampleInput 1000000) 0).health ∧
    (IceHealthEngine.computeHealth exampleConfig 0 (exampleInput 1000000) 0).health ≤ 100 :=
  C3_health_in_range exampleConfig (exampleInput 1000000) 0 0
    (by norm_num [exampleConfig])
    (by norm_num [exampleInput]) (by norm_num [exampleInput])
    (by norm_num [exampleInput]) (by norm_num [exampleInput])
    (by norm_num [exampleInput])

/-- JavaScript number values relevant to the allocation strategies: finite
values (modelled exactly as rationals) plus `NaN` and the signed
infinities, which arise from division by zero. -/
inductive JsVal where
  | fin : ℚ → JsVal
  | nan : JsVal
  | inf : JsVal
  | ninf : JsVal
  deriving DecidableEq

namespace JsVal

/-- JavaScript addition. -/
def add : JsVal → JsVal → JsVal
  | nan, _ => nan
  | _, nan => nan
  | fin a, fin b => fin (a + b)
  | inf, ninf => nan
  | ninf, inf => nan
  | inf, _ => inf
  | _, inf => inf
  | ninf, _ => ninf
  | _, ninf => ninf

/-- JavaScript multiplication. -/
def mul : JsVal → JsVal → JsVal
  | nan, _ => nan
  | _, nan => nan
  | fin a, fin b => fin (a * b)
  | inf, fin b => if 0 < b then inf else if b < 0 then ninf else nan
  | fin a, inf => if 0 < a then inf else if a < 0 then ninf else nan
  | ninf, fin b => if 0 < b then ninf else if b < 0 then inf else nan
  | fin a, ninf => if 0 < a then ninf else if a < 0 then inf else nan
  | inf, inf => inf
  | inf, ninf => ninf
  | ninf, inf => ninf
  | ninf, ninf => inf

/-- JavaScript division.  Dividing a non-zero finite value by zero yields a
signed infinity; `0 / 0` yields `NaN` (rationals carry no signed zero, so the
positive-zero divisor case is the one modelled). -/
def div : JsVal → JsVal → JsVal
  | nan, _ => nan
  | _, nan => nan
  | fin a, fin b =>
      if b = 0 then (if a = 0 then nan else if 0 < a then inf else ninf)
      else fin (a / b)
  | inf, fin b => if 0 ≤ b then inf else ninf
  | ninf, fin b => if 0 ≤ b then ninf else inf
  | fin _, inf => fin 0
  | fin _, ninf => fin 0
  | _, _ => nan

/-- The JavaScript comparison `v > 0` (false for `NaN`). -/
def gtZero : JsVal → Bool
  | fin a => decide (0 < a)
  | inf => true
  | _ => false

end JsVal

/-- `AllocationConfig`: the four configured percentages. -/
structure AllocationConfig where
  buybackPct : ℚ
  lpPct : ℚ
  burnPct : ℚ
  coolingPct : ℚ
  deriving DecidableEq

/-- The four per-category amounts of an `EpochAllocation` (the
`allocations` record).  Amounts are JavaScript numbers because the adaptive
strategy can produce `NaN` via division by zero. -/
structure AllocationAmounts where
  buyback : JsVal
  lp : JsVal
  burn : JsVal
  cooling : JsVal
  deriving DecidableEq

/-- Action lifecycle status. -/
inductive ActionStatus where
  | pending
  | executed
  | failed
  deriving DecidableEq

/-- Action category tag. -/
inductive ActionType where
  | buyback
  | addLp
  | burn
  | coolingEvent
  deriving DecidableEq

/-- `AllocationAction`: one record per attempted allocation category. -/
structure AllocationAction where
  type : ActionType
  amountSol : JsVal
  signature : Option String := none
  status : ActionStatus
  error : Option String := none
  deriving DecidableEq

/-- `EpochAllocation`: the budget split for one epoch. -/
structure EpochAllocation where
  totalFeesToAllocate : ℚ
  allocations : AllocationAmounts
  actions : List AllocationAction
  deriving DecidableEq

namespace FixedAllocationStrategy

/-- `FixedAllocationStrategy.allocate`: static percentages from the config;
the health state is ignored. -/
def allocate (feeAmount : ℚ) (_iceHealth : IceHealthState)
    (config : AllocationConfig) : EpochAllocation :=
  { totalFeesToAllocate := feeAmount
    allocations :=
      { buyback := .fin ((feeAmount * config.buybackPct) / 100)
        lp := .fin ((feeAmount * config.lpPct) / 100)
        burn := .fin ((feeAmount * config.burnPct) / 100)
        cooling := .fin ((feeAmount * config.coolingPct) / 100) }
    actions := [] }

end FixedAllocationStrategy

namespace AdaptiveAllocationStrategy

/-- `AdaptiveAllocationStrategy.allocate`: the buyback percentage is a step
function of health; the remaining categories are rescaled by
`baseCategoryPct / (100 - baseBuybackPct) * remaining`, computed with
JavaScript division semantics (no guard on the zero denominator). -/
def allocate (feeAmount : ℚ) (iceHealth : IceHealthState)
    (baseConfig : AllocationConfig) : EpochAllocation :=
  let health := iceHealth.health
  let buybackPct : ℚ :=
    if health < 30 then 85
    else if health < 50 then 80
    else if health < 70 then baseConfig.buybackPct
    else 50
  let remaining : ℚ := 100 - buybackPct
  let lpPct :=
    ((JsVal.fin baseConfig.lpPct).div (.fin (100 - baseConfig.buybackPct))).mul
      (.fin remaining)
  let burnPct :=
    ((JsVal.fin baseConfig.burnPct).div (.fin (100 - baseConfig.buybackPct))).mul
      (.fin remaining)
  let coolingPct :=
    ((JsVal.fin baseConfig.coolingPct).div (.fin (100 - baseConfig.buybackPct))).mul
      (.fin remaining)
  { totalFeesToAllocate := feeAmount
    allocations :=
      { buyback := .fin ((feeAmount * buybackPct) / 100)
        lp := ((JsVal.fin feeAmount).mul lpPct).div (.fin 100)
        burn := ((JsVal.fin feeAmount).mul burnPct).div (.fin 100)
        cooling := ((JsVal.fin feeAmount).mul coolingPct).div (.fin 100) }
    actions := [] }

end AdaptiveAllocationStrategy

/-- A concrete health snapshot with composite health 25 (critical band of the
adaptive strategy). -/
def criticalHealthState : IceHealthState :=
  { timestamp := 0
    health := 25
    metrics := ⟨50, 50, 50, 10, 5⟩
    status := .MELTING
    lastActionTime := 0
    epochNumber := 1 }

/-- A concrete health snapshot with composite health 50 (the adaptive
strategy then uses the base configured buyback percentage). -/
def midHealthState : IceHealthState :=
  { timestamp := 0
    health := 50
    metrics := ⟨50, 50, 50, 10, 5⟩
    status := .ALIVE
    lastActionTime := 0
    epochNumber := 1 }

/-- An allocation configuration that puts 100% into buyback, the edge case
where the adaptive strategy's rescaling denominator `100 - baseBuybackPct`
is zero. -/
def fullBuybackConfig : AllocationConfig := ⟨100, 0, 0, 0⟩

/-- Splitting `fee` as `bp`% into buyback and rescaling the other three base
percentages by `(100 - bp) / (100 - b)` conserves the total. -/
lemma adaptive_pct_sum (fee l bu c b bp : ℚ) (hd : (100:ℚ) - b ≠ 0)
    (hlbc : l + bu + c = 100 - b) :
    fee * bp / 100 + fee * (l / (100 - b) * (100 - bp)) / 100
      + fee * (bu / (100 - b) * (100 - bp)) / 100
      + fee * (c / (100 - b) * (100 - bp)) / 100 = fee := by
  have key : l / (100 - b) * (100 - bp) + bu / (100 - b) * (100 - bp)
      + c / (100 - b) * (100 - bp) = 100 - bp := by
    have h1 : l / (100 - b) * (100 - bp) + bu / (100 - b) * (100 - bp)
        + c / (100 - b) * (100 - bp) = (l + bu + c) / (100 - b) * (100 - bp) := by
      ring
    rw [h1, hlbc, div_self hd, one_mul]
  calc fee * bp / 100 + fee * (l / (100 - b) * (100 - bp)) / 100
        + fee * (bu / (100 - b) * (100 - bp)) / 100
        + fee * (c / (100 - b) * (100 - bp)) / 100
      = fee * (bp + (l / (100 - b) * (100 - bp) + bu / (100 - b) * (100 - bp)
          + c / (100 - b) * (100 - bp))) / 100 := by ring
    _ = fee * (bp + (100 - bp)) / 100 := by rw [key]
    _ = fee := by ring

/-- Claim C4: with health 25 and base config 70/20/5/5 the adaptive strategy
uses an 85% buyback and allocates lp 10%, burn 2.5% and cooling 2.5% of the
fee (amounts fee×0.85, fee×0.10, fee×0.025, fee×0.025), preserving the base
20:5:5 ratio among the non-buyback categories. -/
theorem C4_adaptive_critical_allocation (fee : ℚ) (st : IceHealthState)
    (hh : st.health = 25) :
    (AdaptiveAllocationStrategy.allocate fee st ⟨70, 20, 5, 5⟩).allocations
      = ⟨.fin (fee * (85/100)), .fin (fee * (10/100)),
         .fin (fee * (25/1000)), .fin (fee * (25/1000))⟩ := by
  simp only [AdaptiveAllocationStrategy.allocate, hh]
  norm_num [JsVal.div, JsVal.mul, AllocationAmounts.mk.injEq, JsVal.fin.injEq]
  refine ⟨by ring, by ring, by ring⟩

/-- Witness for C4 at fee 8 and a concrete health-25 state. -/
theorem C4_adaptive_critical_allocation_witness :
    (AdaptiveAllocationStrategy.allocate 8 criticalHealthState ⟨70, 20, 5, 5⟩).allocations
      = ⟨.fin (8 * (85/100)), .fin (8 * (10/100)),
         .fin (8 * (25/1000)), .fin (8 * (25/1000))⟩ :=
  C4_adaptive_critical_allocation 8 criticalHealthState rfl

/-- Claim C5: with a base config whose buybackPct is 100, the adaptive
strategy divides by zero: the lp, burn and cooling amounts are JavaScript
`NaN` (0/0 propagated through the percentage arithmetic), not the zero
amounts a guard would produce. -/
theorem C5_zero_denominator_nan :
    (AdaptiveAllocationStrategy.allocate 1 midHealthState fullBuybackConfig).allocations.lp
        = .nan ∧
    (AdaptiveAllocationStrategy.allocate 1 midHealthState fullBuybackConfig).allocations.burn
        = .nan ∧
    (AdaptiveAllocationStrategy.allocate 1 midHealthState fullBuybackConfig).allocations.cooling
        = .nan ∧
    JsVal.nan ≠ JsVal.fin 0 := by
  refine ⟨?_, ?_, ?_, by simp⟩ <;>
    norm_num [AdaptiveAllocationStrategy.allocate, midHealthState, fullBuybackConfig,
      JsVal.div, JsVal.mul]

/-- Claim C6: for a non-negative fee and a config whose four percentages sum
to exactly 100, the four amounts of `FixedAllocationStrategy.allocate` sum
exactly to the fee; and provided the base buyback percentage is below 100,
so do the four amounts of `AdaptiveAllocationStrategy.allocate`. -/
theorem C6_allocation_sum (fee : ℚ) (st : IceHealthState) (cfg : AllocationConfig)
    (hfee : 0 ≤ fee)
    (hsum : cfg.buybackPct + cfg.lpPct + cfg.burnPct + cfg.coolingPct = 100) :
    ((((FixedAllocationStrategy.allocate fee st cfg).allocations.buyback.add
        (FixedAllocationStrategy.allocate fee st cfg).allocations.lp).add
        (FixedAllocationStrategy.allocate fee st cfg).allocations.burn).add
        (FixedAllocationStrategy.allocate fee st cfg).allocations.cooling
      = .fin fee) ∧
    (cfg.buybackPct < 100 →
      (((AdaptiveAllocationStrategy.allocate fee st cfg).allocations.buyback.add
          (AdaptiveAllocationStrategy.allocate fee st cfg).allocations.lp).add
          (AdaptiveAllocationStrategy.allocate fee st cfg).allocations.burn).add
          (AdaptiveAllocationStrategy.allocate fee st cfg).allocations.cooling
        = .fin fee) := by
  constructor
  · simp only [FixedAllocationStrategy.allocate, JsVal.add, JsVal.fin.injEq]
    linear_combination fee * hsum / 100
  · intro hb
    have hd : (100 : ℚ) - cfg.buybackPct ≠ 0 := by linarith
    have hlbc : cfg.lpPct + cfg.burnPct + cfg.coolingPct = 100 - cfg.buybackPct := by
      linarith
    simp only [AdaptiveAllocationStrategy.allocate]
    generalize (if st.health < 30 then (85:ℚ) else if st.health < 50 then 80
      else if st.health < 70 then cfg.buybackPct else 50) = bp
    simp only [JsVal.div, JsVal.mul, JsVal.add]
    simp only [hd, if_false]
    norm_num
    exact adaptive_pct_sum fee cfg.lpPct cfg.burnPct cfg.coolingPct
      cfg.buybackPct bp hd hlbc

/-- Witness for C6 at fee 2, the 70/20/5/5 config and a concrete health-25
state. -/
theorem C6_allocation_sum_witness :
    ((((FixedAllocationStrategy.allocate 2 criticalHealthState ⟨70, 20, 5, 5⟩).allocations.buyback.add
        (FixedAllocationStrategy.allocate 2 criticalHealthState ⟨70, 20, 5, 5⟩).allocations.lp).add
        (FixedAllocationStrategy.allocate 2 criticalHealthState ⟨70, 20, 5, 5⟩).allocations.burn).add
        (FixedAllocationStrategy.allocate 2 criticalHealthState ⟨70, 20, 5, 5⟩).allocations.cooling
      = .fin 2) ∧
    ((((AdaptiveAllocationStrategy.allocate 2 criticalHealthState ⟨70, 20, 5, 5⟩).allocations.buyback.add
        (AdaptiveAllocationStrategy.allocate 2 criticalHealthState ⟨70, 20, 5, 5⟩).allocations.lp).add
        (AdaptiveAllocationStrategy.allocate 2 criticalHealthState ⟨70, 20, 5, 5⟩).allocations.burn).add
        (AdaptiveAllocationStrategy.allocate 2 criticalHealthState ⟨70, 20, 5, 5⟩).allocations.cooling
      = .fin 2) :=
  ⟨(C6_allocation_sum 2 criticalHealthState ⟨70, 20, 5, 5⟩ (by norm_num) (by norm_num)).1,
   (C6_allocation_sum 2 criticalHealthState ⟨70, 20, 5, 5⟩ (by norm_num) (by norm_num)).2
     (by norm_num)⟩

/-- Executor mode (`ExecutorConfig.mode`). -/
inductive ExecMode where
  | dryRun
  | live
  deriving DecidableEq

/-- `ExecutorConfig` from the protocol configuration.  Numeric fields are
rationals because the configuration loader parses them with `parseFloat`. -/
structure ExecutorConfig where
  mode : ExecMode
  epochIntervalSeconds : ℚ
  maxBudgetPerEpochSol : ℚ
  minIntervalSeconds : ℚ
  maxConsecutiveFailures : ℚ
  minBalanceToOperateSol : ℚ
  driftToleranceBps : ℚ
  deriving DecidableEq

/-- Allocation-strategy selector (`ProtocolConfig.allocationMode`). -/
inductive AllocationMode where
  | adaptive
  | fixed
  deriving DecidableEq

/-- The slice of `ProtocolConfig` the executor consumes. -/
structure ProtocolConfig where
  executor : ExecutorConfig
  maxSlippageBps : ℚ
  maxPriceImpactBps : ℚ
  allocationMode : AllocationMode
  allocationConfig : AllocationConfig
  deriving DecidableEq

/-- Swap quote (`Quote`). -/
structure Quote where
  inputAmount : ℚ
  outputAmount : ℚ
  priceImpactBps : ℚ
  feeBps : ℚ
  routePath : String
  deriving DecidableEq

/-- Swap execution result (`SwapResult`). -/
structure SwapResult where
  signature : String
  inputAmount : ℚ
  outputAmount : ℚ
  actualPriceImpactBps : ℚ
  deriving DecidableEq

/-- The executor's private mutable state (`executorState`). -/
structure ExecutorState where
  lastExecutionTime : ℤ
  consecutiveFailures : ℕ
  epochNumber : ℕ
  circuitBreakerActive : Bool
  deriving DecidableEq

/-- The external world observed during one call to `executeEpoch`: the wall
clock, and the outcomes of the awaited external calls (`error e` models the
promise rejecting with message `e`).  In the source every such rejection is
caught next to its call site — the balance RPC inside `checkBotBalance`, the
quote/swap calls inside `executeBuyback` — so the translated functions are
total over this oracle; logging is effect-free and modelled as absent. -/
structure EpochOracle where
  now : ℤ
  balanceLamports : Except String ℤ
  dryRunQuote : Except String Quote
  swapResult : Except String SwapResult

namespace Executor

/-- `Executor.checkBotBalance`: converts lamports to SOL; a rejected RPC call
is caught and reported as balance 0. -/
def checkBotBalance (o : EpochOracle) : ℚ :=
  match o.balanceLamports with
  | .ok lamports => (lamports : ℚ) / 1000000000
  | .error _ => 0

/-- `Executor.incrementFailureCount`: bump the counter, and latch the circuit
breaker when it reaches the configured maximum. -/
def incrementFailureCount (cfg : ProtocolConfig) (st : ExecutorState) :
    ExecutorState :=
  let st' := { st with consecutiveFailures := st.consecutiveFailures + 1 }
  if (st'.consecutiveFailures : ℚ) ≥ cfg.executor.maxConsecutiveFailures then
    { st' with circuitBreakerActive := true }
  else st'

/-- `Executor.resetCircuitBreaker`: the manual reset clears the breaker flag
and zeroes the failure counter. -/
def resetCircuitBreaker (st : ExecutorState) : ExecutorState :=
  { st with circuitBreakerActive := false, consecutiveFailures := 0 }

/-- `Executor.getState`: a read-only copy of the executor state. -/
def getState (st : ExecutorState) : ExecutorState := st

/-- `Executor.executeBuyback`: dry-run quote, price-impact ceiling, then the
swap; every rejection is caught inside this method and recorded on the
returned action.  The source interpolates the offending numbers into the
price-impact message; the model keeps its constant head. -/
def executeBuyback (cfg : ProtocolConfig) (o : EpochOracle)
    (solAmount : JsVal) : AllocationAction :=
  match o.dryRunQuote with
  | .error e =>
      { type := .buyback, amountSol := solAmount, status := .failed, error := some e }
  | .ok quote =>
      if quote.priceImpactBps > cfg.maxPriceImpactBps then
        { type := .buyback, amountSol := solAmount, status := .failed,
          error := some "Price impact too high" }
      else
        match o.swapResult with
        | .error e =>
            { type := .buyback, amountSol := solAmount, status := .failed,
              error := some e }
        | .ok result =>
            { type := .buyback, amountSol := solAmount,
              signature := some result.signature, status := .executed }

/-- `Executor.executeAddLP`: unimplemented — always recorded as failed. -/
def executeAddLP (solAmount : JsVal) : AllocationAction :=
  { type := .addLp, amountSol := solAmount, status := .failed,
    error := some "Not yet implemented" }

/-- `Executor.executeBurn`: unimplemented — always recorded as failed. -/
def executeBurn (iceAmount : JsVal) : AllocationAction :=
  { type := .burn, amountSol := iceAmount, status := .failed,
    error := some "Not yet implemented" }

/-- `Executor.executeCooling`: recorded as executed immediately. -/
def executeCooling (solAmount : JsVal) : AllocationAction :=
  { type := .coolingEvent, amountSol := solAmount, status := .executed }

/-- `Executor.executeActions`: one action per category with a positive
amount, in the fixed priority order buyback, add-lp, burn, cooling. -/
def executeActions (cfg : ProtocolConfig) (o : EpochOracle)
    (allocation : EpochAllocation) : List AllocationAction :=
  (if allocation.allocations.buyback.gtZero then
    [executeBuyback cfg o allocation.allocations.buyback] else [])
  ++ (if allocation.allocations.lp.gtZero then
    [executeAddLP allocation.allocations.lp] else [])
  ++ (if allocation.allocations.burn.gtZero then
    [executeBurn allocation.allocations.burn] else [])
  ++ (if allocation.allocations.cooling.gtZero then
    [executeCooling allocation.allocations.cooling] else [])

/-- The strategy selected once in the `Executor` constructor. -/
def allocationStrategy (cfg : ProtocolConfig) :
    ℚ → IceHealthState → AllocationConfig → EpochAllocation :=
  match cfg.allocationMode with
  | .adaptive => AdaptiveAllocationStrategy.allocate
  | .fixed => FixedAllocationStrategy.allocate

/-- `Executor.executeEpoch` as a state transition: takes the executor state
and the fee tracker's `totalFeesCollected`, returns the updated state, the
updated fee total, and the returned allocation (`none` models `null`). -/
def executeEpoch (cfg : ProtocolConfig) (o : EpochOracle) (st : ExecutorState)
    (totalFeesCollected : ℚ) (iceHealth : IceHealthState) :
    ExecutorState × ℚ × Option EpochAllocation :=
  let st1 := { st with epochNumber := st.epochNumber + 1 }
  if st1.circuitBreakerActive then (st1, totalFeesCollected, none)
  else if ((o.now - st1.lastExecutionTime : ℤ) : ℚ) < cfg.executor.minIntervalSeconds then
    (st1, totalFeesCollected, none)
  else
    let botBalance := checkBotBalance o
    if botBalance < cfg.executor.minBalanceToOperateSol then
      (incrementFailureCount cfg st1, totalFeesCollected, none)
    else
      let feesToProcess := totalFeesCollected
      if feesToProcess < 1/100 then (st1, totalFeesCollected, none)
      else
        let allocation := allocationStrategy cfg feesToProcess iceHealth cfg.allocationConfig
        let allocation :=
          match cfg.executor.mode with
          | .live => { allocation with actions := executeActions cfg o allocation }
          | .dryRun => allocation
        ({ st1 with lastExecutionTime := o.now, consecutiveFailures := 0 },
          0, some allocation)

end Executor

/-- A live-mode protocol configuration with the repository's default executor
settings and the fixed 70/20/5/5 allocation. -/
def liveFixedConfig : ProtocolConfig :=
  { executor :=
      { mode := .live
        epochIntervalSeconds := 1800
        maxBudgetPerEpochSol := 1
        minIntervalSeconds := 300
        maxConsecutiveFailures := 5
        minBalanceToOperateSol := 1/2
        driftToleranceBps := 50 }
    maxSlippageBps := 500
    maxPriceImpactBps := 1000
    allocationMode := .fixed
    allocationConfig := ⟨70, 20, 5, 5⟩ }

/-- An epoch in which every precondition passes (balance 2 SOL, quote fine)
but the swap call itself rejects. -/
def swapFailOracle : EpochOracle :=
  { now := 1000
    balanceLamports := .ok 2000000000
    dryRunQuote := .ok
      { inputAmount := 5, outputAmount := 495/100, priceImpactBps := 100,
        feeBps := 50, routePath := "mock-route" }
    swapResult := .error "swap engine rejected" }

/-- An epoch in which the balance RPC call rejects. -/
def balanceFailOracle : EpochOracle :=
  { now := 1000
    balanceLamports := .error "rpc unavailable"
    dryRunQuote := .ok
      { inputAmount := 5, outputAmount := 495/100, priceImpactBps := 100,
        feeBps := 50, routePath := "mock-route" }
    swapResult := .ok
      { signature := "sig", inputAmount := 5, outputAmount := 495/100,
        actualPriceImpactBps := 100 } }

/-- Claim C7: every silent precondition abort — circuit breaker active,
minimum interval not yet elapsed, or (with the balance check passing) fees
below the 0.01 dust threshold — returns `none` and leaves the failure
counter, breaker flag, last execution time and collected-fee total
unchanged. -/
theorem C7_silent_aborts_frame (cfg : ProtocolConfig) (o : EpochOracle)
    (st : ExecutorState) (fees : ℚ) (ih : IceHealthState)
    (h : st.circuitBreakerActive = true
      ∨ (st.circuitBreakerActive = false
          ∧ ((o.now - st.lastExecutionTime : ℤ) : ℚ) < cfg.executor.minIntervalSeconds)
      ∨ (st.circuitBreakerActive = false
          ∧ ¬ ((o.now - st.lastExecutionTime : ℤ) : ℚ) < cfg.executor.minIntervalSeconds
          ∧ ¬ Executor.checkBotBalance o < cfg.executor.minBalanceToOperateSol
          ∧ fees < 1/100)) :
    (Executor.executeEpoch cfg o st fees ih).2.2 = none ∧
    (Executor.executeEpoch cfg o st fees ih).1.consecutiveFailures = st.consecutiveFailures ∧
    (Executor.executeEpoch cfg o st fees ih).1.circuitBreakerActive = st.circuitBreakerActive ∧
    (Executor.executeEpoch cfg o st fees ih).1.lastExecutionTime = st.lastExecutionTime ∧
    (Executor.executeEpoch cfg o st fees ih).2.1 = fees := by
  rcases h with hcb | ⟨hcb, hint⟩ | ⟨hcb, hint, hbal, hdust⟩
  · simp [Executor.executeEpoch, hcb]
  · push_cast at hint
    simp [Executor.executeEpoch, hcb, hint]
  · push_cast at hint
    norm_num [Executor.executeEpoch, hcb, hint, hbal, hdust]

/-- Witness for C7: a tripped-breaker state aborts with everything intact. -/
theorem C7_silent_aborts_frame_witness :
    (Executor.executeEpoch liveFixedConfig swapFailOracle ⟨0, 2, 6, true⟩ 5 midHealthState).2.2
        = none ∧
    (Executor.executeEpoch liveFixedConfig swapFailOracle ⟨0, 2, 6, true⟩ 5 midHealthState).1.consecutiveFailures
        = (⟨0, 2, 6, true⟩ : ExecutorState).consecutiveFailures ∧
    (Executor.executeEpoch liveFixedConfig swapFailOracle ⟨0, 2, 6, true⟩ 5 midHealthState).1.circuitBreakerActive
        = (⟨0, 2, 6, true⟩ : ExecutorState).circuitBreakerActive ∧
    (Executor.executeEpoch liveFixedConfig swapFailOracle ⟨0, 2, 6, true⟩ 5 midHealthState).1.lastExecutionTime
        = (⟨0, 2, 6, true⟩ : ExecutorState).lastExecutionTime ∧
    (Executor.executeEpoch liveFixedConfig swapFailOracle ⟨0, 2, 6, true⟩ 5 midHealthState).2.1
        = 5 :=
  C7_silent_aborts_frame liveFixedConfig swapFailOracle ⟨0, 2, 6, true⟩ 5 midHealthState
    (Or.inl rfl)

/-- Claim C8: the breaker latches exactly when the bumped failure counter
reaches the configured maximum; a tripped breaker makes every epoch abort
with the flag (and counter) intact; and the manual reset is the operation
that clears the flag and zeroes the counter. -/
theorem C8_circuit_breaker_lifecycle :
    (∀ (cfg : ProtocolConfig) (st : ExecutorState),
      st.circuitBreakerActive = false →
        ((Executor.incrementFailureCount cfg st).circuitBreakerActive = true
            ↔ cfg.executor.maxConsecutiveFailures ≤ (st.consecutiveFailures : ℚ) + 1)
          ∧ (Executor.incrementFailureCount cfg st).consecutiveFailures
              = st.consecutiveFailures + 1) ∧
    (∀ (cfg : ProtocolConfig) (o : EpochOracle) (st : ExecutorState) (fees : ℚ)
        (ih : IceHealthState),
      st.circuitBreakerActive = true →
        (Executor.executeEpoch cfg o st fees ih).2.2 = none ∧
        (Executor.executeEpoch cfg o st fees ih).1.circuitBreakerActive = true ∧
        (Executor.executeEpoch cfg o st fees ih).1.consecutiveFailures
          = st.consecutiveFailures) ∧
    (∀ (cfg : ProtocolConfig) (o : EpochOracle) (st : ExecutorState) (fees : ℚ)
        (ih : IceHealthState),
      st.circuitBreakerActive = false →
      ¬ ((o.now - st.lastExecutionTime : ℤ) : ℚ) < cfg.executor.minIntervalSeconds →
      Executor.checkBotBalance o < cfg.executor.minBalanceToOperateSol →
        (Executor.executeEpoch cfg o st fees ih).1.consecutiveFailures
            = st.consecutiveFailures + 1 ∧
        (Executor.executeEpoch cfg o st fees ih).2.2 = none) ∧
    (∀ st : ExecutorState, Executor.resetCircuitBreaker st
        = { st with circuitBreakerActive := false, consecutiveFailures := 0 }) := by
  refine ⟨?_, ?_, ?_, fun _ => rfl⟩
  · intro cfg st hb
    unfold Executor.incrementFailureCount
    by_cases hge : ((st.consecutiveFailures + 1 : ℕ) : ℚ) ≥ cfg.executor.maxConsecutiveFailures <;>
      · push_cast at hge
        simp [hge, hb]
        try push_cast
        try simpa using hge
  · intro cfg o st fees ih h
    simp [Executor.executeEpoch, h]
  · intro cfg o st fees ih hcb hint hbal
    push_cast at hint
    simp [Executor.executeEpoch, hcb, hint, hbal, Executor.incrementFailureCount]
    split_ifs <;> simp

/-- Witness for C8: concrete instantiations of each conjunct (a 4th failure
out of a maximum of 5 does not trip the breaker; a tripped breaker makes the
epoch a no-op; a low-balance abort counts one failure; the reset clears). -/
theorem C8_circuit_breaker_lifecycle_witness :
    (((Executor.incrementFailureCount liveFixedConfig ⟨0, 3, 0, false⟩).circuitBreakerActive = true
        ↔ liveFixedConfig.executor.maxConsecutiveFailures ≤ ((3 : ℕ) : ℚ) + 1)
      ∧ (Executor.incrementFailureCount liveFixedConfig ⟨0, 3, 0, false⟩).consecutiveFailures
          = 3 + 1) ∧
    ((Executor.executeEpoch liveFixedConfig swapFailOracle ⟨0, 5, 9, true⟩ 5 midHealthState).2.2
        = none ∧
      (Executor.executeEpoch liveFixedConfig swapFailOracle ⟨0, 5, 9, true⟩ 5 midHealthState).1.circuitBreakerActive
        = true ∧
      (Executor.executeEpoch liveFixedConfig swapFailOracle ⟨0, 5, 9, true⟩ 5 midHealthState).1.consecutiveFailures
        = 5) ∧
    ((Executor.executeEpoch liveFixedConfig balanceFailOracle ⟨0, 0, 0, false⟩ 5 midHealthState).1.consecutiveFailures
        = 0 + 1 ∧
      (Executor.executeEpoch liveFixedConfig balanceFailOracle ⟨0, 0, 0, false⟩ 5 midHealthState).2.2
        = none) ∧
    Executor.resetCircuitBreaker ⟨42, 5, 9, true⟩
      = { (⟨42, 5, 9, true⟩ : ExecutorState) with
          circuitBreakerActive := false, consecutiveFailures := 0 } :=
  ⟨C8_circuit_breaker_lifecycle.1 liveFixedConfig ⟨0, 3, 0, false⟩ rfl,
   C8_circuit_breaker_lifecycle.2.1 liveFixedConfig swapFailOracle ⟨0, 5, 9, true⟩ 5
     midHealthState rfl,
   C8_circuit_breaker_lifecycle.2.2.1 liveFixedConfig balanceFailOracle ⟨0, 0, 0, false⟩ 5
     midHealthState rfl (by norm_num [balanceFailOracle, liveFixedConfig])
     (by norm_num [Executor.checkBotBalance, balanceFailOracle, liveFixedConfig]),
   C8_circuit_breaker_lifecycle.2.2.2 ⟨42, 5, 9, true⟩⟩

/-- Claim C9 counterexample: an exception raised during action execution (the
swap call rejects) does NOT make `executeEpoch` return null, and the failure
counter is reset to 0 rather than incremented — the rejection is caught
inside `executeBuyback` and recorded as a failed action while the epoch
completes normally. -/
theorem C9_counterexample :
    Executor.executeEpoch liveFixedConfig swapFailOracle ⟨0, 3, 0, false⟩ 5 midHealthState
      = (⟨1000, 0, 1, false⟩, 0, some
          { totalFeesToAllocate := 5
            allocations := ⟨.fin (7/2), .fin 1, .fin (1/4), .fin (1/4)⟩
            actions :=
              [⟨.buyback, .fin (7/2), none, .failed, some "swap engine rejected"⟩,
               ⟨.addLp, .fin 1, none, .failed, some "Not yet implemented"⟩,
               ⟨.burn, .fin (1/4), none, .failed, some "Not yet implemented"⟩,
               ⟨.coolingEvent, .fin (1/4), none, .executed, none⟩] }) ∧
    (Executor.executeEpoch liveFixedConfig swapFailOracle ⟨0, 3, 0, false⟩ 5 midHealthState).2.2
      ≠ none ∧
    (Executor.executeEpoch liveFixedConfig swapFailOracle ⟨0, 3, 0, false⟩ 5 midHealthState).1.consecutiveFailures
      = 0 ∧
    (0 : ℕ) ≠ 3 + 1 := by
  have h : Executor.executeEpoch liveFixedConfig swapFailOracle ⟨0, 3, 0, false⟩ 5 midHealthState
      = (⟨1000, 0, 1, false⟩, 0, some
          { totalFeesToAllocate := 5
            allocations := ⟨.fin (7/2), .fin 1, .fin (1/4), .fin (1/4)⟩
            actions :=
              [⟨.buyback, .fin (7/2), none, .failed, some "swap engine rejected"⟩,
               ⟨.addLp, .fin 1, none, .failed, some "Not yet implemented"⟩,
               ⟨.burn, .fin (1/4), none, .failed, some "Not yet implemented"⟩,
               ⟨.coolingEvent, .fin (1/4), none, .executed, none⟩] }) := by
    norm_num [Executor.executeEpoch, Executor.executeActions, Executor.executeBuyback,
      Executor.executeAddLP, Executor.executeBurn, Executor.executeCooling,
      Executor.allocationStrategy, Executor.checkBotBalance,
      FixedAllocationStrategy.allocate, liveFixedConfig, swapFailOracle,
      midHealthState, JsVal.gtZero]
  refine ⟨h, by rw [h]; simp, by rw [h], by norm_num⟩

/-- Claim C9 (amended): `executeEpoch` never lets an exception escape, but
containment happens at the site of each external call rather than in one
outer handler: a rejected balance query is treated as balance 0 inside
`checkBotBalance` (yielding a null epoch and exactly one counted failure
whenever the configured minimum balance is positive); a rejected swap is
recorded as a failed buyback action inside `executeBuyback`; and an epoch
whose preconditions all pass returns an allocation and resets the failure
counter to 0 no matter which external calls rejected. -/
theorem C9_amended_exception_containment :
    (∀ (cfg : ProtocolConfig) (o : EpochOracle) (st : ExecutorState) (fees : ℚ)
        (ih : IceHealthState) (e : String),
      st.circuitBreakerActive = false →
      ¬ ((o.now - st.lastExecutionTime : ℤ) : ℚ) < cfg.executor.minIntervalSeconds →
      o.balanceLamports = .error e →
      0 < cfg.executor.minBalanceToOperateSol →
        (Executor.executeEpoch cfg o st fees ih).2.2 = none ∧
        (Executor.executeEpoch cfg o st fees ih).1.consecutiveFailures
          = st.consecutiveFailures + 1) ∧
    (∀ (cfg : ProtocolConfig) (o : EpochOracle) (amt : JsVal) (e : String),
      o.swapResult = .error e →
        (Executor.executeBuyback cfg o amt).status = .failed) ∧
    (∀ (cfg : ProtocolConfig) (o : EpochOracle) (st : ExecutorState) (fees : ℚ)
        (ih : IceHealthState),
      st.circuitBreakerActive = false →
      ¬ ((o.now - st.lastExecutionTime : ℤ) : ℚ) < cfg.executor.minIntervalSeconds →
      ¬ Executor.checkBotBalance o < cfg.executor.minBalanceToOperateSol →
      ¬ fees < 1/100 →
        (Executor.executeEpoch cfg o st fees ih).2.2.isSome = true ∧
        (Executor.executeEpoch cfg o st fees ih).1.consecutiveFailures = 0) := by
  refine ⟨?_, ?_, ?_⟩
  · intro cfg o st fees ih e hcb hint hbal hmin
    push_cast at hint
    have hzero : Executor.checkBotBalance o = 0 := by
      simp [Executor.checkBotBalance, hbal]
    simp [Executor.executeEpoch, hcb, hint, hzero, hmin, Executor.incrementFailureCount]
    split_ifs <;> simp
  · intro cfg o amt e he
    rcases hq : o.dryRunQuote with e' | q
    · unfold Executor.executeBuyback
      rw [hq]
    · simp only [Executor.executeBuyback, hq, he]
      split_ifs <;> rfl
  · intro cfg o st fees ih hcb hint hbal hdust
    push_cast at hint
    norm_num [Executor.executeEpoch, hcb, hint, hbal, hdust]

/-- Witness for C9 (amended): each conjunct at concrete inputs — a failing
balance RPC yields a null epoch with one counted failure; a failing swap
yields a failed buyback action; a passing epoch with a failing swap still
returns an allocation with the counter reset. -/
theorem C9_amended_exception_containment_witness :
    ((Executor.executeEpoch liveFixedConfig balanceFailOracle ⟨0, 1, 0, false⟩ 5 midHealthState).2.2
        = none ∧
      (Executor.executeEpoch liveFixedConfig balanceFailOracle ⟨0, 1, 0, false⟩ 5 midHealthState).1.consecutiveFailures
        = 1 + 1) ∧
    (Executor.executeBuyback liveFixedConfig swapFailOracle (.fin (7/2))).status = .failed ∧
    ((Executor.executeEpoch liveFixedConfig swapFailOracle ⟨0, 3, 0, false⟩ 5 midHealthState).2.2.isSome
        = true ∧
      (Executor.executeEpoch liveFixedConfig swapFailOracle ⟨0, 3, 0, false⟩ 5 midHealthState).1.consecutiveFailures
        = 0) :=
  ⟨C9_amended_exception_containment.1 liveFixedConfig balanceFailOracle ⟨0, 1, 0, false⟩ 5
      midHealthState "rpc unavailable" rfl
      (by norm_num [balanceFailOracle, liveFixedConfig]) rfl
      (by norm_num [liveFixedConfig]),
   C9_amended_exception_containment.2.1 liveFixedConfig swapFailOracle (.fin (7/2))
      "swap engine rejected" rfl,
   C9_amended_exception_containment.2.2 liveFixedConfig swapFailOracle ⟨0, 3, 0, false⟩ 5
      midHealthState rfl (by norm_num [swapFailOracle, liveFixedConfig])
      (by norm_num [Executor.checkBotBalance, swapFailOracle, liveFixedConfig])
      (by norm_num)⟩

/-- Claim C10: every call to `executeEpoch` — silent aborts, failures and
successes alike — increments the epoch number visible through `getState` by
exactly one. -/
theorem C10_epoch_number_always_increments (cfg : ProtocolConfig) (o : EpochOracle)
    (st : ExecutorState) (fees : ℚ) (ih : IceHealthState) :
    (Executor.getState (Executor.executeEpoch cfg o st fees ih).1).epochNumber
      = st.epochNumber + 1 := by
  simp only [Executor.executeEpoch, Executor.getState, Executor.incrementFailureCount]
  split_ifs <;> rfl
